import Mathlib

/-!
# Verification of the doogo supplier-onboarding orchestrator

Shallow embedding of:
* `application/jobs/supplierJobs.py` — the batch onboarding job
  (`process_pending_suppliers`, `_after_slack_success`,
  `_lookup_user_id_by_email`), and
* the commission computation of
  `application/src/service/settlement_service.py` (`make_settlement_excel`).

External collaborators (Slack client, SMTP mail, eformsign dispatch) are
modelled as an environment value recording the outcome each call would
produce; the job's control flow over those outcomes is translated
branch-for-branch from the Python source.  Per the source
(`slackService.py`, `email_service.py`), the notification helpers
(`notify_*`, `post_message_to_channel`, `send_workspace_join_invite_email`)
swallow their own exceptions, so only `create_slack_channel_only` can raise
into the job's outer exception handler; `conversations_invite` errors are
handled inline and `_after_slack_success` catches everything it does.

`contractPercent`-style columns are MySQL `Numeric(5,2)` values, surfaced in
Python as exact `Decimal`s, so the commission arithmetic is modelled over
`ℚ`; Python's `round` (used via `int(round(...))`) rounds ties to the even
neighbour, which is modelled by `roundHalfEven`.
-/

namespace Doogo

/-- Python truthiness of an optional string: `None` and `""` are falsy. -/
def optTruthy : Option String → Bool
  | none => false
  | some s => !(s == "")

/-- ASCII whitespace as stripped by Python's `str.strip()` (the characters
relevant to this code base). -/
def isPySpace (c : Char) : Bool :=
  c == ' ' || c == '\t' || c == '\n' || c == '\r'

/-- Python's `str.strip()`: drop leading and trailing whitespace. -/
def pyStrip (s : String) : String :=
  ⟨((s.data.dropWhile isPySpace).reverse.dropWhile isPySpace).reverse⟩

/-- Python's `str.upper()` on one character (ASCII range, which covers the
template codes `"a"`/`"b"` this code base uppercases). -/
def pyUpperChar (c : Char) : Char :=
  if 97 ≤ c.toNat ∧ c.toNat ≤ 122 then Char.ofNat (c.toNat - 32) else c

/-- Python's `str.upper()`. -/
def pyUpper (s : String) : String :=
  ⟨s.data.map pyUpperChar⟩

/-- The columns of `SUPPLIER_LIST` (model `SupplierList.py`) that the job and
the settlement commission computation read or write. -/
structure SupplierList where
  seq : Nat
  companyName : Option String
  supplierCode : Option String
  supplierID : Option String
  supplierPW : Option String
  email : Option String
  stateCode : Option String
  channelId : Option String
  contractStatus : Option String
  contractId : Option String
  contractTemplate : Option String
  contractPercent : Option ℚ
  contractThreshold : Option ℤ
  contractPercentUnder : Option ℚ
  contractPercentOver : Option ℚ
  contractSkip : Bool
  deriving DecidableEq, Repr

/-- Outcome of `create_slack_channel_only`: it can raise (caught by the outer
handler in `process_pending_suppliers`) or return a dict whose
`channel_id` entry the job reads. -/
inductive ChanResult
  | raised
  | returned (channelId : Option String)
  deriving DecidableEq, Repr

/-- Outcome of the `users_lookupByEmail` Slack call inside
`_lookup_user_id_by_email`: a response carrying `user.get("id")`, a
`SlackApiError` carrying an error code, or an unexpected exception. -/
inductive LookupResp
  | ok (uid : Option String)
  | apiError (err : Option String)
  | exn
  deriving DecidableEq, Repr

/-- Outcome of the `conversations_invite` Slack call. -/
inductive InviteResult
  | ok
  | apiError (err : Option String)
  | exn
  deriving DecidableEq, Repr

/-- Outcome of the eformsign token-issue + document-creation sequence in
`_after_slack_success` step 5: success with `doc.get("document_id")`, or any
`EformsignError`/exception (both handled identically there). -/
inductive DispatchResult
  | ok (docId : Option String)
  | fail
  deriving DecidableEq, Repr

/-- One tick's external world: module-level Slack client presence, the
outcome each collaborator call would produce, and the
`EFORMSIGN_TEMPLATE_ID_A`/`_B` environment variables. -/
structure Env where
  slackClientPresent : Bool
  createChannel : ChanResult
  lookupResp : LookupResp
  invite : InviteResult
  inviteMailSendOk : Bool
  templateIdA : Option String
  templateIdB : Option String
  dispatch : DispatchResult
  deriving DecidableEq, Repr

/-- Observable side effects of processing one record in one tick. -/
structure Effects where
  inviteMailCalls : Nat := 0
  contractStepRan : Bool := false
  dispatcherCalled : Bool := false
  channelInviteCalled : Bool := false
  invitedOk : Bool := false
  deriving DecidableEq, Repr

/-- No side effects yet. -/
def noEffects : Effects := {}

/-- `_lookup_user_id_by_email` (supplierJobs.py lines 52–69): returns the
looked-up user id, and `None` when the client is missing, the email is
empty, the API reports `users_not_found`/`account_inactive`, any other
Slack API error occurs, or an unexpected exception is raised.  The function
is total: every branch returns. -/
def lookupUserIdByEmail (clientPresent : Bool) (email : String) (resp : LookupResp) :
    Option String :=
  if !(clientPresent && !(email == "")) then none
  else
    match resp with
    | .ok uid => uid
    | .apiError err =>
        if err == some "users_not_found" || err == some "account_inactive" then none
        else none
    | .exn => none

/-- `email = (s.email or "").strip()` (line 125). -/
def emailOf (s : SupplierList) : String := pyStrip (s.email.getD "")

/-- `need_slack` (line 127). -/
def needSlackOf (s : SupplierList) : Bool :=
  !(optTruthy s.channelId) && optTruthy s.supplierCode && optTruthy s.companyName
    && !(emailOf s == "")

/-- `need_contract` as first computed (line 128), before any channel creation
of the same tick flips it to `True`. -/
def needContract0Of (s : SupplierList) : Bool :=
  optTruthy s.channelId && (s.contractStatus == none || s.contractStatus == some "E")
    && !(emailOf s == "")

/-- Template-'A' parameter validation in `_after_slack_success`
(lines 312–315): percent present and in `[0, 100]`. -/
def templateAValid (s : SupplierList) : Bool :=
  match s.contractPercent with
  | none => false
  | some p => decide (0 ≤ p) && decide (p ≤ 100)

/-- Template-'B' parameter validation in `_after_slack_success`
(lines 337–346): threshold present and `≥ 0`, both percents in `[0, 100]`. -/
def templateBValid (s : SupplierList) : Bool :=
  match s.contractThreshold, s.contractPercentUnder, s.contractPercentOver with
  | some th, some pu, some po =>
      decide (0 ≤ th) && decide (0 ≤ pu) && decide (pu ≤ 100)
        && decide (0 ≤ po) && decide (po ≤ 100)
  | _, _, _ => false

/-- Steps 4–5 of `_after_slack_success`: check the template id from the
environment, mark `contractStatus = 'P'`, then issue the token and create
the document; success stores `'A'` and the document id, failure stores
`'E'`.  The `Bool` records whether the dispatcher was invoked.  The
transient `'P'` mark is overwritten before the function returns and is not
observable in the returned record. -/
def dispatchWithTemplate (env : Env) (templateId : Option String) (s : SupplierList) :
    SupplierList × Bool :=
  if !(optTruthy templateId) then ({ s with contractStatus := some "E" }, false)
  else
    match env.dispatch with
    | .ok docId =>
        if optTruthy docId then
          ({ s with contractStatus := some "A", contractId := docId }, true)
        else ({ s with contractStatus := some "A" }, true)
    | .fail => ({ s with contractStatus := some "E" }, true)

/-- `_after_slack_success` (supplierJobs.py lines 244–482): the contract
step.  Skip flag first, then recipient email, then template selection and
validation, then dispatch.  The eformsign module import of step 0 always
succeeds (the module is part of this repository).  The `Bool` records
whether the dispatcher was invoked. -/
def afterSlackSuccess (env : Env) (s : SupplierList) : SupplierList × Bool :=
  if s.contractSkip then ({ s with contractStatus := some "S" }, false)
  else if pyStrip (s.email.getD "") == "" then ({ s with contractStatus := some "E" }, false)
  else if pyUpper (s.contractTemplate.getD "") == "A" then
    if templateAValid s then dispatchWithTemplate env env.templateIdA s
    else ({ s with contractStatus := some "E" }, false)
  else if pyUpper (s.contractTemplate.getD "") == "B" then
    if templateBValid s then dispatchWithTemplate env env.templateIdB s
    else ({ s with contractStatus := some "E" }, false)
  else ({ s with contractStatus := some "E" }, false)

/-- Step 2-4 of the processing loop (lines 209–211): a record still marked
`'P'` at the end of its processing is set to `'A'`. -/
def finalize (s : SupplierList) : SupplierList :=
  if s.stateCode = some "P" then { s with stateCode := some "A" } else s

/-- Step 2-3 plus finalization: run the contract step when `need_contract`
holds, then tidy the state code. -/
def contractFinish (env : Env) (s : SupplierList) (eff : Effects) (needContract : Bool) :
    SupplierList × Effects :=
  if needContract then
    match afterSlackSuccess env s with
    | (s2, disp) =>
        (finalize s2, { eff with contractStepRan := true, dispatcherCalled := disp })
  else (finalize s, eff)

/-- Branch (C) of the membership step (lines 173–200): with a truthy user
id, a set channel and a live client, call `conversations_invite`; success
sets `stateCode = 'A'`, an `already_in_channel` error counts as success but
leaves the state unchanged, other errors and exceptions are logged only. -/
def channelInviteStep (env : Env) (s : SupplierList) : SupplierList × Effects :=
  if optTruthy s.channelId && env.slackClientPresent then
    match env.invite with
    | .ok =>
        ({ s with stateCode := some "A" },
         { channelInviteCalled := true, invitedOk := true })
    | .apiError err =>
        if err == some "already_in_channel" then
          (s, { channelInviteCalled := true, invitedOk := true })
        else (s, { channelInviteCalled := true })
    | .exn => (s, { channelInviteCalled := true })
  else (s, noEffects)

/-- Branches (A)/(B)/(C) of the membership step, after the user lookup:
no user and previous state `'I'` re-sets `'I'` without mailing; no user and
any other previous state sends the invite mail once and sets `'I'`; both
stop the record for this tick.  A truthy user id falls through to the
channel invite and then the contract step. -/
def membershipWithUid (env : Env) (prev : Option String) (s : SupplierList)
    (needContract : Bool) (uid : Option String) : SupplierList × Effects :=
  if !(optTruthy uid) && (prev == some "I") then
    ({ s with stateCode := some "I" }, noEffects)
  else if !(optTruthy uid) && !(prev == some "I") then
    ({ s with stateCode := some "I" }, { inviteMailCalls := 1 })
  else
    match channelInviteStep env s with
    | (s2, eff) => contractFinish env s2 eff needContract

/-- Step 2-2 of the processing loop (lines 151–200): the membership step
runs only when the stripped email (computed once at line 125, before the
channel step) is non-empty; otherwise control falls directly to the
contract step. -/
def membershipStep (env : Env) (prev : Option String) (s : SupplierList)
    (email : String) (needContract : Bool) : SupplierList × Effects :=
  if !(email == "") then
    membershipWithUid env prev s needContract
      (lookupUserIdByEmail env.slackClientPresent email env.lookupResp)
  else contractFinish env s noEffects needContract

/-- The body of the per-record loop of `process_pending_suppliers`
(lines 122–233).  `prev` is the state remembered in `prev_state_map` before
the batch was marked.  Channel creation failure (no `channel_id`) or a
raised exception sets `stateCode = 'E'` and stops the record; creation
success stores the channel, sets `'A'` and forces `need_contract = True`. -/
def processRecord (env : Env) (prev : Option String) (s : SupplierList) :
    SupplierList × Effects :=
  if needSlackOf s then
    match env.createChannel with
    | .raised => ({ s with stateCode := some "E" }, noEffects)
    | .returned none => ({ s with stateCode := some "E" }, noEffects)
    | .returned (some ch) =>
        membershipStep env prev { s with channelId := some ch, stateCode := some "A" }
          (emailOf s) true
  else
    membershipStep env prev s (emailOf s) (needContract0Of s)

/-- The marking loop (lines 116–119): every selected record not in state
`'I'` is set to `'P'`; records in `'I'` are left untouched. -/
def markProcessing (s : SupplierList) : SupplierList :=
  if s.stateCode = some "I" then s else { s with stateCode := some "P" }

/-- One tick's work on one selected record: remember the previous state,
mark, then process. -/
def tickRecord (env : Env) (s : SupplierList) : SupplierList × Effects :=
  processRecord env s.stateCode (markProcessing s)

/-- The candidate selector's `WHERE` predicate (lines 91–100):
`STATE_CODE IS NULL`, or `STATE_CODE = 'RA'` with both credentials present,
or `STATE_CODE = 'I'`.  (The redundant `stateCode.isnot(None)` conjunct of
the source is kept.) -/
def selectorEligible (s : SupplierList) : Bool :=
  s.stateCode == none
    || (s.stateCode == some "RA" && !(s.stateCode == none)
          && !(s.supplierID == none) && !(s.supplierPW == none))
    || s.stateCode == some "I"

/-- The marking pass over the whole selected batch (single commit at
line 119), before the processing loop starts. -/
def markBatch (rows : List SupplierList) : List SupplierList :=
  rows.map markProcessing

/-- One tick over a selected batch: remember every row's previous state
(`prev_state_map`; `seq` is the primary key, so the per-row lookup is the
row's own prior state), mark the whole batch, then process each marked row
against its remembered previous state. -/
def processBatch (env : Env) (rows : List SupplierList) :
    List (SupplierList × Effects) :=
  ((rows.map fun r => r.stateCode).zip (markBatch rows)).map
    fun pm => processRecord env pm.1 pm.2

/-- One scheduler tick as seen by a single record: the record is processed
only when the selector predicate admits it. -/
def tickIfEligible (env : Env) (s : SupplierList) : SupplierList × Nat :=
  if selectorEligible s then
    ((tickRecord env s).1, (tickRecord env s).2.inviteMailCalls)
  else (s, 0)

/-- Repeated scheduler ticks over one record, returning the final record and
the total number of invite-mail send calls. -/
def runTicks : List Env → SupplierList → SupplierList × Nat
  | [], s => (s, 0)
  | e :: es, s =>
      ((runTicks es (tickIfEligible e s).1).1,
        (tickIfEligible e s).2 + (runTicks es (tickIfEligible e s).1).2)

/-- The membership lookup of a tick would report "not found" for this
record: the id the code computes is falsy. -/
def lookupNotFound (env : Env) (s : SupplierList) : Prop :=
  optTruthy (lookupUserIdByEmail env.slackClientPresent (emailOf s) env.lookupResp) = false

/-- The channel step cannot fail for this record in this environment: either
no channel is needed, or creation returns a channel id. -/
def channelStepOk (env : Env) (s : SupplierList) : Bool :=
  !(needSlackOf s)
    || (match env.createChannel with
        | .returned (some _) => true
        | _ => false)

/-! ## Commission computation (settlement_service.py lines 388–398) -/

/-- Python's `round` on the exact `Decimal` values involved: round to the
nearest integer, ties to the even neighbour. -/
def roundHalfEven (q : ℚ) : ℤ :=
  if q - ⌊q⌋ < 1/2 then ⌊q⌋
  else if 1/2 < q - ⌊q⌋ then ⌊q⌋ + 1
  else if ⌊q⌋ % 2 = 0 then ⌊q⌋ else ⌊q⌋ + 1

/-- The record's contract template as the commission code reads it. -/
inductive ContractTemplate
  | unset
  | flatRate (percent : ℚ)
  | tiered (thresholdAmount : ℤ) (percentUnder percentOver : ℚ)
  deriving DecidableEq

/-- The commission computed by `make_settlement_excel`
(settlement_service.py lines 388–398): template `'A'` is a flat percentage;
template `'B'` splits at the fixed constant `10000000` — the record's
`contractThreshold` is not consulted; no template yields `0`. -/
def commission (itemsTotal : ℤ) (t : ContractTemplate) : ℤ :=
  match t with
  | .unset => 0
  | .flatRate percent => roundHalfEven ((itemsTotal : ℚ) * percent / 100)
  | .tiered _ percentUnder percentOver =>
      if 10000000 < itemsTotal then
        roundHalfEven (((10000000 : ℤ) : ℚ) * percentUnder / 100)
          + roundHalfEven (((itemsTotal - 10000000 : ℤ) : ℚ) * percentOver / 100)
      else roundHalfEven ((itemsTotal : ℚ) * percentUnder / 100)

/-- The spec's half-up rounding ("a fractional part of exactly .5 rounds
upward"), stated for comparison with the code's rounding. -/
def roundHalfUp (q : ℚ) : ℤ := ⌊q + 1/2⌋

/-- The tiered formula as the spec states it, for comparison with
`commission`: split at the record's own `thresholdAmount`, the threshold
portion at the under rate and only the excess at the over rate.  The
rounding function is a parameter because claim C2 leaves it open. -/
def specTieredCommission (rnd : ℚ → ℤ) (grossAmount thresholdAmount : ℤ)
    (percentUnder percentOver : ℚ) : ℤ :=
  if grossAmount ≤ thresholdAmount then rnd ((grossAmount : ℚ) * percentUnder / 100)
  else
    rnd ((thresholdAmount : ℚ) * percentUnder / 100)
      + rnd (((grossAmount - thresholdAmount : ℤ) : ℚ) * percentOver / 100)

/-! ## Concrete records and environments used as test points -/

/-- A benign environment: every collaborator call succeeds. -/
def happyEnv : Env :=
  { slackClientPresent := true, createChannel := .returned (some "C123"),
    lookupResp := .ok (some "U1"), invite := .ok, inviteMailSendOk := true,
    templateIdA := some "TPLA", templateIdB := some "TPLB",
    dispatch := .ok (some "DOC1") }

/-- A record still awaiting workspace membership (`stateCode = 'I'`). -/
def awaitingRec : SupplierList :=
  { seq := 3, companyName := some "Acme", supplierCode := some "S3",
    supplierID := some "id3", supplierPW := some "pw3",
    email := some "c@d.e", stateCode := some "I", channelId := some "C3",
    contractStatus := some "A", contractId := none,
    contractTemplate := some "A", contractPercent := some 10,
    contractThreshold := none, contractPercentUnder := none,
    contractPercentOver := none, contractSkip := false }

/-- An unprocessed record (`stateCode` NULL). -/
def freshRec : SupplierList :=
  { seq := 4, companyName := some "Beta", supplierCode := some "S4",
    supplierID := some "id4", supplierPW := some "pw4",
    email := some "d@e.f", stateCode := none, channelId := none,
    contractStatus := none, contractId := none,
    contractTemplate := some "A", contractPercent := some 10,
    contractThreshold := none, contractPercentUnder := none,
    contractPercentOver := none, contractSkip := false }

/-- A record abandoned mid-tick by a crash: `stateCode = 'P'`, credentials
present. -/
def stuckProcessingRec : SupplierList :=
  { freshRec with seq := 5, stateCode := some "P" }

instance (e : Env) (s : SupplierList) : Decidable (lookupNotFound e s) :=
  inferInstanceAs (Decidable (_ = false))

/-- An environment whose membership lookup reports "not found". -/
def notFoundEnv : Env :=
  { happyEnv with lookupResp := .apiError (some "users_not_found") }

/-- A record in state `'A'` (Sent) whose channel is created during the tick:
the contract step runs anyway. -/
def sentRec : SupplierList :=
  { freshRec with seq := 6, contractStatus := some "A" }

/-- An environment whose channel invite reports "already in channel". -/
def alreadyMemberEnv : Env :=
  { happyEnv with invite := .apiError (some "already_in_channel") }

/-- A fresh-intake record with an existing channel, used as the C10 test
point. -/
def lookupFailRec : SupplierList :=
  { awaitingRec with seq := 7, stateCode := none }

end Doogo

namespace Doogo

/-! ## Rounding characterization -/

/-- `roundHalfEven` returns a nearest integer, and at an exact tie it returns
the even neighbour. -/
theorem roundHalfEven_nearest (q : ℚ) :
    |q - (roundHalfEven q : ℚ)| ≤ 1/2 ∧
    (|q - (roundHalfEven q : ℚ)| = 1/2 → roundHalfEven q % 2 = 0) := by
  have h1 : (⌊q⌋ : ℚ) ≤ q := Int.floor_le q
  have h2 : q < ⌊q⌋ + 1 := Int.lt_floor_add_one q
  unfold roundHalfEven
  split_ifs with ha hb hc
  · refine ⟨?_, ?_⟩
    · rw [abs_of_nonneg (by linarith)]; linarith
    · intro habs; rw [abs_of_nonneg (by linarith)] at habs; linarith
  · push_neg at ha
    refine ⟨?_, ?_⟩
    · rw [abs_of_nonpos (by push_cast; linarith)]
      push_cast; linarith
    · intro _; exfalso
      rw [abs_of_nonpos (by push_cast; linarith)] at *
      push_cast at *
      linarith
  · push_neg at ha hb
    have he : q - ⌊q⌋ = 1/2 := le_antisymm hb ha
    refine ⟨?_, fun _ => hc⟩
    rw [abs_of_nonneg (by linarith)]; linarith
  · push_neg at ha hb
    have he : q - ⌊q⌋ = 1/2 := le_antisymm hb ha
    refine ⟨?_, fun _ => ?_⟩
    · rw [abs_of_nonpos (by push_cast; linarith)]
      push_cast; linarith
    · omega

/-- C7: `commission(10_000_000, Tiered{threshold=10_000_000, under=10, over=20})`
equals `commission(10_000_000, FlatRate{10})` (a gross amount exactly at the
threshold is charged only at the under rate), and
`commission(15_000_000, Tiered{threshold=10_000_000, under=10, over=20})`
equals `2_000_000`. -/
theorem commissionBoundaryAndMarginalSplit :
    commission 10000000 (ContractTemplate.tiered 10000000 10 20)
        = commission 10000000 (ContractTemplate.flatRate 10) ∧
    commission 15000000 (ContractTemplate.tiered 10000000 10 20) = 2000000 := by
  constructor <;> norm_num [commission, roundHalfEven]

/-- C2 counterexample: at gross 15_000_000 with the record's
thresholdAmount 20_000_000 (under 10%, over 20%), the code charges
2_000_000 (split at the constant 10_000_000) while the claimed formula
(split at the record's own threshold) gives 1_500_000, whichever of the two
rounding modes is used. -/
theorem tieredSplitsAtRecordThreshold_cex :
    commission 15000000 (ContractTemplate.tiered 20000000 10 20)
        ≠ specTieredCommission roundHalfEven 15000000 20000000 10 20 ∧
    commission 15000000 (ContractTemplate.tiered 20000000 10 20)
        ≠ specTieredCommission roundHalfUp 15000000 20000000 10 20 := by
  constructor <;>
    norm_num [commission, specTieredCommission, roundHalfEven, roundHalfUp]

/-- C2 amended: the tiered commission splits at the fixed constant
10_000_000, ignoring the record's `thresholdAmount`; the 10_000_000 portion
is charged at the under rate and only the excess over 10_000_000 at the
over rate. -/
theorem tieredSplitsAtFixedTenMillion (g th : ℤ) (pu po : ℚ) :
    commission g (ContractTemplate.tiered th pu po)
      = specTieredCommission roundHalfEven g 10000000 pu po := by
  simp only [commission, specTieredCommission]
  rcases le_or_lt g 10000000 with h | h
  · rw [if_neg (not_lt.mpr h), if_pos h]
  · rw [if_pos h, if_neg (not_le.mpr h)]

/-- C8 counterexample: at gross 10 with a 5% flat rate the exact value is
0.5; the code (Python `round`, ties to even) yields 0, while half-up
rounding yields 1. -/
theorem halfUpRounding_cex :
    commission 10 (ContractTemplate.flatRate 5)
      ≠ roundHalfUp ((10 : ℚ) * 5 / 100) := by
  norm_num [commission, roundHalfEven, roundHalfUp]

/-- C8 amended: the flat-rate commission is `grossAmount * p / 100` rounded
to the nearest integer with ties to the even neighbour (Python's `round`,
banker's rounding) — not half-up — and each rounded term of the tiered
computation uses the same rounding (each term equals a flat-rate commission
over the corresponding portion). -/
theorem commissionRoundsHalfToEven (g : ℤ) (p : ℚ) :
    |(g : ℚ) * p / 100 - (commission g (ContractTemplate.flatRate p) : ℚ)| ≤ 1/2 ∧
    (|(g : ℚ) * p / 100 - (commission g (ContractTemplate.flatRate p) : ℚ)| = 1/2 →
      commission g (ContractTemplate.flatRate p) % 2 = 0) ∧
    ∀ th pu po, commission g (ContractTemplate.tiered th pu po)
      = if 10000000 < g then
          commission 10000000 (ContractTemplate.flatRate pu)
            + commission (g - 10000000) (ContractTemplate.flatRate po)
        else commission g (ContractTemplate.flatRate pu) := by
  refine ⟨(roundHalfEven_nearest _).1, (roundHalfEven_nearest _).2, ?_⟩
  intro th pu po
  simp only [commission]

/-- Witness for C8's amended theorem at a concrete input. -/
theorem commissionRoundsHalfToEven_w :
    commission 15000000 (ContractTemplate.tiered 1 10 20)
      = commission 10000000 (ContractTemplate.flatRate 10)
        + commission 5000000 (ContractTemplate.flatRate 20) := by
  have h := (commissionRoundsHalfToEven 15000000 10).2.2 1 10 20
  rw [if_pos (by norm_num)] at h
  norm_num at h
  exact h

end Doogo

namespace Doogo

/-- C3 counterexample: a batch containing a record in state `'I'` is not
marked `'P'` by the marking pass — its persisted state when the processing
loop (and hence the first external call) starts is still `'I'`. -/
theorem allSelectedMarkedProcessing_cex :
    (markBatch [awaitingRec]).map (fun r => r.stateCode) = [some "I"] ∧
    (some "I" : Option String) ≠ some "P" := by
  constructor
  · decide
  · decide

/-- C3 amended: the batch tick remembers each row's previous state and marks
the whole batch before any row is processed, but the marking pass sets
`stateCode = 'P'` only for rows not already in `'I'`; rows in `'I'` keep
`stateCode = 'I'` when the first external call happens. -/
theorem markingSkipsAwaitingMembership (env : Env) (rows : List SupplierList) :
    processBatch env rows
      = ((rows.map fun r => r.stateCode).zip (markBatch rows)).map
          (fun pm => processRecord env pm.1 pm.2) ∧
    ∀ r ∈ rows, (markProcessing r).stateCode
      = if r.stateCode = some "I" then some "I" else some "P" := by
  refine ⟨rfl, ?_⟩
  intro r _
  unfold markProcessing
  split_ifs with h
  · exact h
  · rfl

/-- Witness for C3's amended theorem at a concrete input. -/
theorem markingSkipsAwaitingMembership_w :
    (markProcessing freshRec).stateCode
      = (if freshRec.stateCode = some "I" then some "I" else some "P") :=
  (markingSkipsAwaitingMembership happyEnv [freshRec]).2 freshRec (by decide)

/-- C4: the candidate selector's predicate does NOT treat a record left in
`stateCode = 'P'` as eligible — its query matches only NULL, `'RA'` with
credentials, and `'I'` — so a record stranded in `Processing` by a crash is
never picked up again.  This contradicts the spec's stated requirement (its
§9 design note flags exactly this gap as a bug in the source). -/
theorem selectorExcludesProcessing :
    selectorEligible stuckProcessingRec = false ∧
    stuckProcessingRec.stateCode = some "P" := by
  constructor
  · decide
  · decide

end Doogo

namespace Doogo

/-! ## Structural lemmas about the per-record state machine -/

/-- Finalization never touches `contractStatus`. -/
theorem finalize_contractStatus (s : SupplierList) :
    (finalize s).contractStatus = s.contractStatus := by
  unfold finalize; split <;> rfl

/-- The contract step never touches `stateCode`. -/
theorem afterSlackSuccess_stateCode (env : Env) (s : SupplierList) :
    ((afterSlackSuccess env s).1).stateCode = s.stateCode := by
  unfold afterSlackSuccess dispatchWithTemplate
  repeat' split
  all_goals rfl

/-- With the skip flag set, the contract step marks `'S'`, posts the skip
notifications and returns without touching the dispatcher. -/
theorem afterSlackSuccess_skip (env : Env) (s : SupplierList)
    (h : s.contractSkip = true) :
    afterSlackSuccess env s = ({ s with contractStatus := some "S" }, false) := by
  unfold afterSlackSuccess
  rw [if_pos h]

/-- The channel-invite branch never touches `contractStatus`. -/
theorem channelInviteStep_contractStatus (env : Env) (s : SupplierList) :
    (channelInviteStep env s).1.contractStatus = s.contractStatus := by
  unfold channelInviteStep
  repeat' split
  all_goals rfl

/-- The channel-invite branch never touches the skip flag. -/
theorem channelInviteStep_contractSkip (env : Env) (s : SupplierList) :
    (channelInviteStep env s).1.contractSkip = s.contractSkip := by
  unfold channelInviteStep
  repeat' split
  all_goals rfl

/-- The channel-invite branch never calls the dispatcher. -/
theorem channelInviteStep_dispatcher (env : Env) (s : SupplierList) :
    (channelInviteStep env s).2.dispatcherCalled = false := by
  unfold channelInviteStep noEffects
  repeat' split
  all_goals rfl

/-- The channel-invite branch never sends an invite mail. -/
theorem channelInviteStep_mail (env : Env) (s : SupplierList) :
    (channelInviteStep env s).2.inviteMailCalls = 0 := by
  unfold channelInviteStep noEffects
  repeat' split
  all_goals rfl

end Doogo

namespace Doogo

/-- Marking preserves the skip flag. -/
theorem markProcessing_contractSkip (s : SupplierList) :
    (markProcessing s).contractSkip = s.contractSkip := by
  unfold markProcessing; split <;> rfl

/-- Marking preserves `contractStatus`. -/
theorem markProcessing_contractStatus (s : SupplierList) :
    (markProcessing s).contractStatus = s.contractStatus := by
  unfold markProcessing; split <;> rfl

/-- Contract-then-finalize for a skip-flagged record: the stored
`contractStatus` is either untouched or `'S'`, and the dispatcher is not
called. -/
theorem contractFinish_skip (env : Env) (s : SupplierList) (eff : Effects)
    (nc : Bool) (h : s.contractSkip = true) (h2 : eff.dispatcherCalled = false) :
    ((contractFinish env s eff nc).1.contractStatus = s.contractStatus ∨
      (contractFinish env s eff nc).1.contractStatus = some "S") ∧
    (contractFinish env s eff nc).2.dispatcherCalled = false := by
  unfold contractFinish
  cases nc
  · simp [finalize_contractStatus, h2]
  · simp [afterSlackSuccess_skip env s h, finalize_contractStatus]

/-- The membership step for a skip-flagged record: `contractStatus` is
either untouched or `'S'`, and the dispatcher is not called. -/
theorem membershipWithUid_skip (env : Env) (prev : Option String)
    (s : SupplierList) (nc : Bool) (uid : Option String)
    (h : s.contractSkip = true) :
    ((membershipWithUid env prev s nc uid).1.contractStatus = s.contractStatus ∨
      (membershipWithUid env prev s nc uid).1.contractStatus = some "S") ∧
    (membershipWithUid env prev s nc uid).2.dispatcherCalled = false := by
  unfold membershipWithUid
  split_ifs
  · exact ⟨Or.inl rfl, rfl⟩
  · exact ⟨Or.inl rfl, rfl⟩
  · rcases hceq : channelInviteStep env s with ⟨s2, eff⟩
    have hcs : s2.contractStatus = s.contractStatus := by
      have hx := channelInviteStep_contractStatus env s
      rw [hceq] at hx; exact hx
    have hsk : s2.contractSkip = s.contractSkip := by
      have hx := channelInviteStep_contractSkip env s
      rw [hceq] at hx; exact hx
    have hd : eff.dispatcherCalled = false := by
      have hx := channelInviteStep_dispatcher env s
      rw [hceq] at hx; exact hx
    have hres := contractFinish_skip env s2 eff nc (hsk.trans h) hd
    rw [hcs] at hres
    exact hres

/-- The whole membership phase for a skip-flagged record. -/
theorem membershipStep_skip (env : Env) (prev : Option String)
    (s : SupplierList) (email : String) (nc : Bool) (h : s.contractSkip = true) :
    ((membershipStep env prev s email nc).1.contractStatus = s.contractStatus ∨
      (membershipStep env prev s email nc).1.contractStatus = some "S") ∧
    (membershipStep env prev s email nc).2.dispatcherCalled = false := by
  unfold membershipStep
  split_ifs
  · exact membershipWithUid_skip env prev s nc _ h
  · exact contractFinish_skip env s noEffects nc h rfl

/-- The whole per-record loop body for a skip-flagged record:
`contractStatus` ends either untouched or `'S'`, and the dispatcher is
never called. -/
theorem processRecord_skip (env : Env) (prev : Option String)
    (s : SupplierList) (h : s.contractSkip = true) :
    ((processRecord env prev s).1.contractStatus = s.contractStatus ∨
      (processRecord env prev s).1.contractStatus = some "S") ∧
    (processRecord env prev s).2.dispatcherCalled = false := by
  unfold processRecord
  split_ifs
  · cases hc : env.createChannel with
    | raised => exact ⟨Or.inl rfl, rfl⟩
    | returned channelId =>
        cases channelId with
        | none => exact ⟨Or.inl rfl, rfl⟩
        | some ch =>
            exact membershipStep_skip env prev
              { s with channelId := some ch, stateCode := some "A" } (emailOf s) true h
  · exact membershipStep_skip env prev s (emailOf s) (needContract0Of s) h

/-- C9: a record with the skip flag set that enters the contract step gets
`contractStatus = 'S'` and the dispatcher is never invoked; over the whole
tick such a record can never acquire `contractStatus = 'A'` (Sent). -/
theorem contractSkipNeverSent (env : Env) (s : SupplierList)
    (h : s.contractSkip = true) :
    ((afterSlackSuccess env s).1).contractStatus = some "S" ∧
    (afterSlackSuccess env s).2 = false ∧
    (tickRecord env s).2.dispatcherCalled = false ∧
    (s.contractStatus ≠ some "A" → (tickRecord env s).1.contractStatus ≠ some "A") := by
  have hm : (markProcessing s).contractSkip = true := by
    rw [markProcessing_contractSkip]; exact h
  have hmain := processRecord_skip env s.stateCode (markProcessing s) hm
  refine ⟨?_, ?_, ?_, ?_⟩
  · rw [afterSlackSuccess_skip env s h]
  · rw [afterSlackSuccess_skip env s h]
  · exact hmain.2
  · intro hns
    unfold tickRecord
    rcases hmain.1 with h1 | h1
    · rw [h1, markProcessing_contractStatus]; exact hns
    · rw [h1]; simp

/-- Witness for C9 at a concrete skip-flagged record. -/
theorem contractSkipNeverSent_w :
    ((afterSlackSuccess happyEnv { freshRec with contractSkip := true }).1).contractStatus
      = some "S" ∧
    (tickRecord happyEnv { freshRec with contractSkip := true }).2.dispatcherCalled
      = false :=
  ⟨(contractSkipNeverSent happyEnv { freshRec with contractSkip := true } rfl).1,
   (contractSkipNeverSent happyEnv { freshRec with contractSkip := true } rfl).2.2.1⟩

end Doogo

namespace Doogo

/-- `need_slack` requires a non-empty stripped email. -/
theorem needSlack_email (s : SupplierList) (h : needSlackOf s = true) :
    (emailOf s == "") = false := by
  unfold needSlackOf at h
  rw [Bool.and_eq_true] at h
  simpa using h.2

/-- With a falsy looked-up user id, the membership step stops the record in
state `'I'`; the invite mail goes out exactly when the previous state was
not `'I'`. -/
theorem membershipWithUid_notFound (env : Env) (prev : Option String)
    (s : SupplierList) (nc : Bool) (uid : Option String)
    (hu : optTruthy uid = false) :
    membershipWithUid env prev s nc uid
      = if prev == some "I" then ({ s with stateCode := some "I" }, noEffects)
        else ({ s with stateCode := some "I" }, { inviteMailCalls := 1 }) := by
  unfold membershipWithUid
  by_cases hp : (prev == some "I") = true
  · simp [hu, hp]
  · simp [hu, hp, Bool.eq_false_iff.mpr hp]

/-- One full tick of a record sitting in `'I'`, under a "not found" lookup:
no invite mail is sent and the record ends the tick in `'I'` (or `'E'` if
the channel step failed), with its email untouched. -/
theorem tickRecord_awaiting_notFound (env : Env) (s : SupplierList)
    (hI : s.stateCode = some "I") (hnf : lookupNotFound env s) :
    (tickRecord env s).2.inviteMailCalls = 0 ∧
    ((tickRecord env s).1.stateCode = some "I" ∨
      (tickRecord env s).1.stateCode = some "E") ∧
    (tickRecord env s).1.email = s.email := by
  have hm : markProcessing s = s := by unfold markProcessing; rw [if_pos hI]
  unfold lookupNotFound at hnf
  unfold tickRecord
  rw [hm, hI]
  unfold processRecord
  by_cases hns : needSlackOf s = true
  · rw [if_pos hns]
    have he := needSlack_email s hns
    cases hc : env.createChannel with
    | raised => exact ⟨rfl, Or.inr rfl, rfl⟩
    | returned cid =>
        cases cid with
        | none => exact ⟨rfl, Or.inr rfl, rfl⟩
        | some ch =>
            dsimp only
            unfold membershipStep
            rw [if_pos (by simpa using he)]
            rw [membershipWithUid_notFound env (some "I") _ true _ hnf]
            simp [noEffects]
  · rw [if_neg hns]
    unfold membershipStep
    by_cases he : (emailOf s == "") = true
    · rw [if_neg (by simpa using he)]
      have hnc : needContract0Of s = false := by
        unfold needContract0Of; rw [he]; simp
      rw [hnc]
      unfold contractFinish
      rw [if_neg (by simp)]
      unfold finalize
      rw [if_neg (by rw [hI]; simp)]
      exact ⟨rfl, Or.inl hI, rfl⟩
    · rw [if_pos (by simpa using he)]
      rw [membershipWithUid_notFound env (some "I") s (needContract0Of s) _ hnf]
      simp [noEffects]

end Doogo

namespace Doogo

/-- A record in `'I'` is selected by the candidate selector. -/
theorem selectorEligible_of_I (s : SupplierList) (h : s.stateCode = some "I") :
    selectorEligible s = true := by
  unfold selectorEligible; rw [h]; simp

/-- A record in `'E'` is not selected by the candidate selector. -/
theorem selectorEligible_E (s : SupplierList) (h : s.stateCode = some "E") :
    selectorEligible s = false := by
  unfold selectorEligible; rw [h]; simp

/-- Ticks do nothing to a record the selector never admits. -/
theorem runTicks_stuck (envs : List Env) (s : SupplierList)
    (h : selectorEligible s = false) : runTicks envs s = (s, 0) := by
  induction envs with
  | nil => rfl
  | cons e es ih =>
      simp only [runTicks, tickIfEligible, h]
      simp [ih]

/-- Whether the lookup reports "not found" depends only on the record's
email column. -/
theorem lookupNotFound_email (e : Env) (s s' : SupplierList)
    (h : s'.email = s.email) : lookupNotFound e s' ↔ lookupNotFound e s := by
  unfold lookupNotFound emailOf
  rw [h]

/-- Starting from `'I'`, as long as every tick's lookup still reports "not
found", no tick ever sends an invite mail. -/
theorem runTicks_awaiting_noInvites (envs : List Env) (s : SupplierList)
    (hI : s.stateCode = some "I")
    (hnf : ∀ e ∈ envs, lookupNotFound e s) :
    (runTicks envs s).2 = 0 := by
  induction envs generalizing s with
  | nil => rfl
  | cons e es ih =>
      have h1 := tickRecord_awaiting_notFound e s hI (hnf e (List.mem_cons_self e es))
      simp only [runTicks, tickIfEligible, selectorEligible_of_I s hI, if_true]
      rcases h1.2.1 with hI' | hE'
      · have hrest := ih (tickRecord e s).1 hI' (fun e' he' =>
          (lookupNotFound_email e' s _ h1.2.2).mpr (hnf e' (List.mem_cons_of_mem e he')))
        rw [h1.1, hrest]
      · rw [h1.1, runTicks_stuck es _ (selectorEligible_E _ hE')]
        simp

/-- One tick of an `'I'` record whose channel step cannot fail, under a "not
found" lookup: the record is re-set to `'I'` and no invite mail goes out. -/
theorem tickRecord_awaiting_notFound_ok (env : Env) (s : SupplierList)
    (hI : s.stateCode = some "I") (hnf : lookupNotFound env s)
    (hok : channelStepOk env s = true) :
    (tickRecord env s).1.stateCode = some "I" ∧
    (tickRecord env s).2.inviteMailCalls = 0 := by
  have hm : markProcessing s = s := by unfold markProcessing; rw [if_pos hI]
  unfold lookupNotFound at hnf
  unfold tickRecord
  rw [hm, hI]
  unfold processRecord
  by_cases hns : needSlackOf s = true
  · rw [if_pos hns]
    have he := needSlack_email s hns
    have hmatch : (match env.createChannel with
        | ChanResult.returned (some _) => true
        | _ => false) = true := by
      unfold channelStepOk at hok
      rw [hns] at hok
      simpa using hok
    cases hc : env.createChannel with
    | raised => rw [hc] at hmatch; simp at hmatch
    | returned cid =>
        cases cid with
        | none => rw [hc] at hmatch; simp at hmatch
        | some ch =>
            dsimp only
            unfold membershipStep
            rw [if_pos (by simpa using he)]
            rw [membershipWithUid_notFound env (some "I") _ true _ hnf]
            simp [noEffects]
  · rw [if_neg hns]
    unfold membershipStep
    by_cases he : (emailOf s == "") = true
    · rw [if_neg (by simpa using he)]
      have hnc : needContract0Of s = false := by
        unfold needContract0Of; rw [he]; simp
      rw [hnc]
      unfold contractFinish
      rw [if_neg (by simp)]
      unfold finalize
      rw [if_neg (by rw [hI]; simp)]
      exact ⟨hI, rfl⟩
    · rw [if_pos (by simpa using he)]
      rw [membershipWithUid_notFound env (some "I") s (needContract0Of s) _ hnf]
      simp [noEffects]

/-- C1: for a record whose state before the tick is `'I'` (awaiting
membership), while the membership lookup keeps reporting "not found", a
tick whose channel step does not fail re-sets `stateCode = 'I'` and never
calls the invite-mail send; repeated ticks therefore add zero invite-mail
calls, so the per-record invite count stays at most 1 (its value from the
original transition into `'I'`). -/
theorem inviteNotResentWhileAwaitingMembership (envs : List Env)
    (s : SupplierList) (hI : s.stateCode = some "I")
    (hnf : ∀ e ∈ envs, lookupNotFound e s) :
    (runTicks envs s).2 = 0 ∧
    ∀ e, lookupNotFound e s → channelStepOk e s = true →
      (tickRecord e s).1.stateCode = some "I" ∧
      (tickRecord e s).2.inviteMailCalls = 0 :=
  ⟨runTicks_awaiting_noInvites envs s hI hnf,
    fun e hn hok => tickRecord_awaiting_notFound_ok e s hI hn hok⟩

/-- Witness for C1 at a concrete record and environment. -/
theorem inviteNotResentWhileAwaitingMembership_w :
    (runTicks [notFoundEnv] awaitingRec).2 = 0 ∧
    (tickRecord notFoundEnv awaitingRec).1.stateCode = some "I" := by
  have h := inviteNotResentWhileAwaitingMembership [notFoundEnv] awaitingRec
    rfl (by decide)
  exact ⟨h.1, (h.2 notFoundEnv (by decide) (by decide)).1⟩

end Doogo

namespace Doogo

/-- Marking preserves `channelId`. -/
theorem markProcessing_channelId (s : SupplierList) :
    (markProcessing s).channelId = s.channelId := by
  unfold markProcessing; split <;> rfl

/-- Marking does not change whether the channel step is needed. -/
theorem needSlackOf_mark (s : SupplierList) :
    needSlackOf (markProcessing s) = needSlackOf s := by
  unfold markProcessing; split <;> rfl

/-- Marking does not change the initial `need_contract` value. -/
theorem needContract0Of_mark (s : SupplierList) :
    needContract0Of (markProcessing s) = needContract0Of s := by
  unfold markProcessing; split <;> rfl

/-- Marking preserves the email column. -/
theorem emailOf_mark (s : SupplierList) :
    emailOf (markProcessing s) = emailOf s := by
  unfold markProcessing; split <;> rfl

/-- The channel-invite branch never sets the contract-step flag. -/
theorem channelInviteStep_contractStepRan (env : Env) (s : SupplierList) :
    (channelInviteStep env s).2.contractStepRan = false := by
  unfold channelInviteStep noEffects
  repeat' split
  all_goals rfl

/-- Without `need_contract`, contract-then-finalize only finalizes. -/
theorem contractFinish_noContract (env : Env) (s : SupplierList) (eff : Effects) :
    contractFinish env s eff false = (finalize s, eff) := by
  unfold contractFinish; simp

/-- The membership step with `need_contract = false` never runs the
contract step. -/
theorem membershipStep_noContract (env : Env) (prev : Option String)
    (s : SupplierList) (email : String) :
    (membershipStep env prev s email false).2.contractStepRan = false := by
  unfold membershipStep membershipWithUid
  split_ifs
  · rfl
  · rfl
  · rcases hceq : channelInviteStep env s with ⟨s2, eff⟩
    have hx := channelInviteStep_contractStepRan env s
    rw [hceq] at hx
    dsimp only
    rw [contractFinish_noContract]
    exact hx
  · rw [contractFinish_noContract]
    rfl

/-- C5 counterexample: `sentRec` has `contractStatus = 'A'` (Sent) and no
channel; its channel is created during the tick, and the contract step —
including the dispatcher — runs for it in the same tick. -/
theorem contractStepOnlyWhenUnsetOrError_cex :
    sentRec.contractStatus = some "A" ∧
    (tickRecord happyEnv sentRec).2.contractStepRan = true ∧
    (tickRecord happyEnv sentRec).2.dispatcherCalled = true := by
  refine ⟨rfl, ?_, ?_⟩ <;> decide

/-- C5 amended: the contract step runs only if the record either satisfied
`need_contract` when the tick read it (`channelRef` set, `contractStatus`
Unset or `'E'`, email present) or had its channel created during the same
tick (which forces `need_contract = True` regardless of
`contractStatus`). -/
theorem contractStepRequiresNeedOrFreshChannel (env : Env) (s : SupplierList)
    (h : (tickRecord env s).2.contractStepRan = true) :
    needContract0Of s = true ∨
    (needSlackOf s = true ∧ ∃ ch, env.createChannel = ChanResult.returned (some ch)) := by
  unfold tickRecord processRecord at h
  rw [needSlackOf_mark, emailOf_mark, needContract0Of_mark] at h
  by_cases hns : needSlackOf s = true
  · rw [if_pos hns] at h
    cases hc : env.createChannel with
    | raised => rw [hc] at h; simp [noEffects] at h
    | returned cid =>
        cases cid with
        | none => rw [hc] at h; simp [noEffects] at h
        | some ch => exact Or.inr ⟨hns, ch, rfl⟩
  · rw [if_neg hns] at h
    by_cases hnc : needContract0Of s = true
    · exact Or.inl hnc
    · have hnc' : needContract0Of s = false := by simpa using hnc
      rw [hnc'] at h
      rw [membershipStep_noContract] at h
      cases h

/-- Witness for C5's amended theorem at a concrete input. -/
theorem contractStepRequiresNeedOrFreshChannel_w :
    needContract0Of sentRec = true ∨
    (needSlackOf sentRec = true ∧
      ∃ ch, happyEnv.createChannel = ChanResult.returned (some ch)) :=
  contractStepRequiresNeedOrFreshChannel happyEnv sentRec (by decide)

end Doogo

namespace Doogo

/-- Finalization is determined by the state code. -/
theorem finalize_stateCode_eq (s t : SupplierList) (h : s.stateCode = t.stateCode) :
    (finalize s).stateCode = (finalize t).stateCode := by
  unfold finalize
  rw [h]
  split_ifs <;> simp [h]

/-- Contract-then-finalize resolves the state code exactly as finalization
of its input record (the contract step never touches it). -/
theorem contractFinish_stateCode (env : Env) (s : SupplierList) (eff : Effects)
    (nc : Bool) :
    (contractFinish env s eff nc).1.stateCode = (finalize s).stateCode := by
  unfold contractFinish
  cases nc
  · simp
  · rcases haq : afterSlackSuccess env s with ⟨s2, disp⟩
    have h2 : s2.stateCode = s.stateCode := by
      have hx := afterSlackSuccess_stateCode env s
      rw [haq] at hx
      exact hx
    dsimp only
    exact finalize_stateCode_eq s2 s h2

/-- Contract-then-finalize keeps the membership flags of its input
effects. -/
theorem contractFinish_invitedOk (env : Env) (s : SupplierList) (eff : Effects)
    (nc : Bool) :
    (contractFinish env s eff nc).2.invitedOk = eff.invitedOk := by
  unfold contractFinish
  cases nc
  · simp
  · rcases haq : afterSlackSuccess env s with ⟨s2, disp⟩
    dsimp only
    rfl

/-- Contract-then-finalize keeps the invite-call flag of its input
effects. -/
theorem contractFinish_inviteCalled (env : Env) (s : SupplierList) (eff : Effects)
    (nc : Bool) :
    (contractFinish env s eff nc).2.channelInviteCalled = eff.channelInviteCalled := by
  unfold contractFinish
  cases nc
  · simp
  · rcases haq : afterSlackSuccess env s with ⟨s2, disp⟩
    dsimp only
    rfl

/-- C6 amended: when the lookup finds a (truthy) user and the record has a
channel and a live client, the `conversations_invite` call is made; a fresh
successful invite sets `stateCode = 'A'` directly; an "already a member"
response is treated as success (the success notification fires) but leaves
the state unchanged at that point, so the record ends the tick in `'A'`
only via finalization of the `'P'` mark — a record whose state before the
tick was `'I'` (never marked `'P'`) ends the tick still in `'I'`, not
`'A'`. -/
theorem inviteOutcomeStateCharacterization (env : Env) (s : SupplierList)
    (hcli : env.slackClientPresent = true)
    (hch : optTruthy s.channelId = true)
    (hfound : optTruthy (lookupUserIdByEmail env.slackClientPresent (emailOf s)
      env.lookupResp) = true) :
    (tickRecord env s).2.channelInviteCalled = true ∧
    (env.invite = InviteResult.ok → (tickRecord env s).1.stateCode = some "A") ∧
    (env.invite = InviteResult.apiError (some "already_in_channel") →
      (tickRecord env s).2.invitedOk = true ∧
      (tickRecord env s).1.stateCode
        = (if s.stateCode = some "I" then some "I" else some "A")) := by
  have he : (emailOf s == "") = false := by
    by_contra hcon
    have he' : (emailOf s == "") = true := by simpa using hcon
    rw [show lookupUserIdByEmail env.slackClientPresent (emailOf s) env.lookupResp
        = none from by unfold lookupUserIdByEmail; rw [he']; simp] at hfound
    simp [optTruthy] at hfound
  have hns : needSlackOf s = false := by
    unfold needSlackOf; rw [hch]; simp
  have hred : tickRecord env s
      = contractFinish env (channelInviteStep env (markProcessing s)).1
          (channelInviteStep env (markProcessing s)).2 (needContract0Of s) := by
    unfold tickRecord processRecord
    rw [needSlackOf_mark, if_neg (by simp [hns])]
    unfold membershipStep
    rw [emailOf_mark, needContract0Of_mark]
    rw [if_pos (by simpa using he)]
    unfold membershipWithUid
    rw [if_neg (by simp [hfound]), if_neg (by simp [hfound])]
  have hcond : (optTruthy (markProcessing s).channelId && env.slackClientPresent)
      = true := by
    rw [markProcessing_channelId, hch, hcli]; rfl
  refine ⟨?_, ?_, ?_⟩
  · rw [hred, contractFinish_inviteCalled]
    unfold channelInviteStep
    rw [if_pos hcond]
    cases env.invite with
    | ok => rfl
    | apiError err => dsimp only; split_ifs <;> rfl
    | exn => rfl
  · intro hok
    rw [hred, contractFinish_stateCode]
    unfold channelInviteStep
    rw [if_pos hcond, hok]
    dsimp only
    unfold finalize
    rw [if_neg (by simp)]
  · intro hae
    constructor
    · rw [hred, contractFinish_invitedOk]
      unfold channelInviteStep
      rw [if_pos hcond, hae]
      dsimp only
      rw [if_pos (by simp)]
    · rw [hred, contractFinish_stateCode]
      unfold channelInviteStep
      rw [if_pos hcond, hae]
      dsimp only
      rw [if_pos (by simp)]
      by_cases hI : s.stateCode = some "I"
      · simp [markProcessing, finalize, hI]
      · simp [markProcessing, finalize, hI]

/-- C6 counterexample: `awaitingRec` sits in `'I'`, the lookup finds the
user, the invite reports "already a member" (a success outcome), yet the
record ends the tick with `stateCode = 'I'`, not Ready (`'A'`). -/
theorem foundMemberAlwaysReady_cex :
    (tickRecord alreadyMemberEnv awaitingRec).2.invitedOk = true ∧
    (tickRecord alreadyMemberEnv awaitingRec).1.stateCode = some "I" ∧
    (some "I" : Option String) ≠ some "A" := by
  refine ⟨?_, ?_, ?_⟩ <;> decide

/-- Witness for C6's amended theorem at a concrete input. -/
theorem inviteOutcomeStateCharacterization_w :
    (tickRecord alreadyMemberEnv awaitingRec).2.invitedOk = true ∧
    (tickRecord alreadyMemberEnv awaitingRec).1.stateCode
      = (if awaitingRec.stateCode = some "I" then some "I" else some "A") :=
  (inviteOutcomeStateCharacterization alreadyMemberEnv awaitingRec
    rfl (by decide) (by decide)).2.2 rfl

end Doogo

namespace Doogo

/-- A tick whose membership lookup yields a falsy id routes a record with a
non-empty email (and no channel step to run) into `'I'`, whatever its
previous state — never into `'E'`. -/
theorem tickRecord_notFound_routesToI (env : Env) (s : SupplierList)
    (he : (emailOf s == "") = false) (hns : needSlackOf s = false)
    (hu : optTruthy (lookupUserIdByEmail env.slackClientPresent (emailOf s)
      env.lookupResp) = false) :
    (tickRecord env s).1.stateCode = some "I" := by
  unfold tickRecord processRecord
  rw [needSlackOf_mark, if_neg (by simp [hns])]
  unfold membershipStep
  rw [emailOf_mark, needContract0Of_mark]
  rw [if_pos (by simpa using he)]
  rw [membershipWithUid_notFound env s.stateCode (markProcessing s)
    (needContract0Of s) _ hu]
  split_ifs <;> rfl

/-- C10: the membership-lookup helper is a total function that returns
`None` for a missing client, an empty email, a `users_not_found` or
`account_inactive` response, any other Slack API error, and any unexpected
exception; consequently, in the tick, a record with a non-empty email whose
lookup comes back falsy (for any of those reasons) is routed into the
invite/`'I'` branch — indistinguishable from "user not registered" — rather
than into `'E'`. -/
theorem lookupTotalNeverErrors :
    (∀ email resp, lookupUserIdByEmail false email resp = none) ∧
    (∀ c resp, lookupUserIdByEmail c "" resp = none) ∧
    (∀ c e, lookupUserIdByEmail c e (.apiError (some "users_not_found")) = none) ∧
    (∀ c e, lookupUserIdByEmail c e (.apiError (some "account_inactive")) = none) ∧
    (∀ c e err, lookupUserIdByEmail c e (.apiError err) = none) ∧
    (∀ c e, lookupUserIdByEmail c e .exn = none) ∧
    (∀ env s, (emailOf s == "") = false → needSlackOf s = false →
      optTruthy (lookupUserIdByEmail env.slackClientPresent (emailOf s)
        env.lookupResp) = false →
      (tickRecord env s).1.stateCode = some "I") := by
  refine ⟨?_, ?_, ?_, ?_, ?_, ?_, ?_⟩
  · intro email resp; unfold lookupUserIdByEmail; simp
  · intro c resp; unfold lookupUserIdByEmail; simp
  · intro c e; unfold lookupUserIdByEmail; split_ifs <;> simp
  · intro c e; unfold lookupUserIdByEmail; split_ifs <;> simp
  · intro c e err; unfold lookupUserIdByEmail; split_ifs <;> simp
  · intro c e; unfold lookupUserIdByEmail; split_ifs <;> simp
  · exact fun env s he hns hu => tickRecord_notFound_routesToI env s he hns hu

/-- Witness for C10's routing consequence at a concrete input. -/
theorem lookupTotalNeverErrors_w :
    (tickRecord notFoundEnv lookupFailRec).1.stateCode = some "I" :=
  lookupTotalNeverErrors.2.2.2.2.2.2 notFoundEnv lookupFailRec
    (by decide) (by decide) (by decide)

end Doogo
